import Mathlib

/-!
Verification development for the Allwinner H3 SD Host Controller emulation
(`hw/sd/allwinner-h3-sdhost.c`).

The device is shallowly embedded: the register file becomes a structure of
natural numbers (each register is a `uint32_t`, so stores truncate modulo
`2^32`), the abstract SD bus becomes an oracle (`SDBusCard`), guest physical
memory becomes a byte-indexed function, and the data bytes pushed onto the
bus become an explicit trace.  Loops of the C source (the DMA descriptor
walk and the chunked per-descriptor copy) are embedded with an explicit
fuel argument; sufficiency of the fuel used by the top-level entry points
is proved below.
-/

set_option maxRecDepth 10000

namespace AwH3

/-- Truncation to 32 bits, as performed by a C `uint32_t` assignment. -/
def u32 (x : Nat) : Nat := x % 2 ^ 32

/-- Bitwise complement on 32 bits (C `~` applied to a 32-bit operand). -/
def compl32 (x : Nat) : Nat := x ^^^ (2 ^ 32 - 1)

/-- Bitwise complement on 64 bits (C `~` applied after promotion to
`uint64_t`, as happens for the MMIO `value` parameter and for small
negative `int` constants converted to `uint64_t`). -/
def compl64 (x : Nat) : Nat := x ^^^ (2 ^ 64 - 1)

/-! Register flag constants, copied from the source header block. -/

def SD_GCTL_INT_ENB : Nat := 1 <<< 4
def SD_GCTL_DMA_ENB : Nat := 1 <<< 5
def SD_GCTL_DMA_RST : Nat := 1 <<< 2
def SD_GCTL_FIFO_RST : Nat := 1 <<< 1
def SD_GCTL_SOFT_RST : Nat := 1 <<< 0

def SD_CMDR_LOAD : Nat := 1 <<< 31
def SD_CMDR_CLKCHANGE : Nat := 1 <<< 21
def SD_CMDR_AUTOSTOP : Nat := 1 <<< 12
def SD_CMDR_WRITE : Nat := 1 <<< 10
def SD_CMDR_DATA : Nat := 1 <<< 9
def SD_CMDR_RESPONSE_LONG : Nat := 1 <<< 7
def SD_CMDR_RESPONSE : Nat := 1 <<< 6
def SD_CMDR_CMDID_MASK : Nat := 0x3f

def SD_RISR_CARD_REMOVE : Nat := 1 <<< 31
def SD_RISR_CARD_INSERT : Nat := 1 <<< 30
def SD_RISR_AUTOCMD_DONE : Nat := 1 <<< 14
def SD_RISR_DATA_COMPLETE : Nat := 1 <<< 3
def SD_RISR_CMD_COMPLETE : Nat := 1 <<< 2
def SD_RISR_NO_RESPONSE : Nat := 1 <<< 1

def SD_STAR_CARD_PRESENT : Nat := 1 <<< 8

def SD_IDST_SUM_RECEIVE_IRQ : Nat := 1 <<< 8
def SD_IDST_RECEIVE_IRQ : Nat := 1 <<< 1
def SD_IDST_TRANSMIT_IRQ : Nat := 1 <<< 0
def SD_IDST_WR_MASK : Nat := 0x3ff

def DESC_STATUS_HOLD : Nat := 1 <<< 31
def DESC_STATUS_ERROR : Nat := 1 <<< 30
def DESC_STATUS_CHAIN : Nat := 1 <<< 4
def DESC_STATUS_FIRST : Nat := 1 <<< 3
def DESC_STATUS_LAST : Nat := 1 <<< 2
def DESC_STATUS_NOIRQ : Nat := 1 <<< 1
def DESC_SIZE_MASK : Nat := 0xfffffffc

/-- The register file of `AwH3SDHostState`; every field is a `uint32_t`
of the source structure (the `response` and `data_crc` arrays are kept
as separate fields respectively as a list). -/
structure AwH3SDHostState where
  global_ctl : Nat
  clock_ctl : Nat
  timeout : Nat
  bus_width : Nat
  block_size : Nat
  byte_count : Nat
  transfer_cnt : Nat
  command : Nat
  command_arg : Nat
  response0 : Nat
  response1 : Nat
  response2 : Nat
  response3 : Nat
  irq_mask : Nat
  irq_status : Nat
  status : Nat
  fifo_wlevel : Nat
  fifo_func_sel : Nat
  debug_enable : Nat
  auto12_arg : Nat
  newtiming_set : Nat
  newtiming_debug : Nat
  hardware_rst : Nat
  dmac : Nat
  desc_base : Nat
  dmac_status : Nat
  dmac_irq : Nat
  card_threshold : Nat
  startbit_detect : Nat
  response_crc : Nat
  data_crc : List Nat
  status_crc : Nat

/-- The abstract SD bus behind the controller (CBI): `respond` models
`sdbus_do_command` (`none` is a negative return, `some bytes` a response
of `bytes.length` bytes), `dataReady` models `sdbus_data_ready`, and
`readData i` is the `i`-th byte `sdbus_read_data` will produce. -/
structure SDBusCard where
  respond : Nat → Nat → Option (List Nat)
  dataReady : Bool
  readData : Nat → Nat

/-- The environment of the device: the SD bus oracle, guest physical
memory (`cpu_physical_memory_read`/`write` operate on it one byte per
address), the number of data bytes consumed from the bus so far, and
the trace of data bytes pushed onto the bus by `sdbus_write_data`. -/
structure World where
  card : SDBusCard
  mem : Nat → Nat
  readCursor : Nat
  written : List Nat

/-- One `sdbus_write_data` call (the `uint8_t` parameter truncates). -/
def busWrite (w : World) (b : Nat) : World :=
  { w with written := w.written ++ [b % 256] }

/-- Store one byte in guest memory. -/
def memStore (m : Nat → Nat) (a v : Nat) : Nat → Nat :=
  fun x => if x = a then v % 256 else m x

/-- Store a list of bytes in guest memory at consecutive addresses. -/
def writeBytesMem (m : Nat → Nat) (a : Nat) : List Nat → (Nat → Nat)
  | [] => m
  | b :: bs => writeBytesMem (memStore m a b) (a + 1) bs

/-- Little-endian 32-bit load from guest memory (descriptor fields). -/
def ldl_le_mem (m : Nat → Nat) (a : Nat) : Nat :=
  (m a % 256) ||| ((m (a + 1) % 256) <<< 8) |||
    ((m (a + 2) % 256) <<< 16) ||| ((m (a + 3) % 256) <<< 24)

/-- The four little-endian bytes of a 32-bit value. -/
def bytesOfU32 (v : Nat) : List Nat :=
  [v &&& 0xff, (v >>> 8) &&& 0xff, (v >>> 16) &&& 0xff, (v >>> 24) &&& 0xff]

/-- Big-endian 32-bit load (`ldl_be_p`) from a response byte buffer. -/
def ldl_be (resp : List Nat) (i : Nat) : Nat :=
  ((resp.getD i 0 % 256) <<< 24) ||| ((resp.getD (i + 1) 0 % 256) <<< 16) |||
    ((resp.getD (i + 2) 0 % 256) <<< 8) ||| (resp.getD (i + 3) 0 % 256)

/-- `aw_h3_sdhost_update_irq`: the level passed to `qemu_set_irq`.
The function modifies no device state; it only drives the IRQ line. -/
def aw_h3_sdhost_update_irq (s : AwH3SDHostState) : Nat :=
  if s.global_ctl &&& SD_GCTL_INT_ENB ≠ 0 then s.irq_status &&& s.irq_mask else 0

/-- `aw_h3_sdhost_update_transfer_cnt`: saturating subtraction on
`transfer_cnt`; at zero, DATA_COMPLETE and AUTOCMD_DONE are raised. -/
def aw_h3_sdhost_update_transfer_cnt (s : AwH3SDHostState) (bytes : Nat) :
    AwH3SDHostState :=
  let s := if s.transfer_cnt > bytes then
      { s with transfer_cnt := s.transfer_cnt - bytes }
    else
      { s with transfer_cnt := 0 }
  if s.transfer_cnt = 0 then
    { s with irq_status :=
        s.irq_status ||| (SD_RISR_DATA_COMPLETE ||| SD_RISR_AUTOCMD_DONE) }
  else s

/-- `aw_h3_sdhost_set_inserted`: card insertion/removal callback
(ends with `aw_h3_sdhost_update_irq`, which changes no state). -/
def aw_h3_sdhost_set_inserted (s : AwH3SDHostState) (inserted : Bool) :
    AwH3SDHostState :=
  if inserted then
    { s with
      irq_status := (s.irq_status ||| SD_RISR_CARD_INSERT) &&&
        compl32 SD_RISR_CARD_REMOVE
      status := s.status ||| SD_STAR_CARD_PRESENT }
  else
    { s with
      irq_status := (s.irq_status &&& compl32 SD_RISR_CARD_INSERT) |||
        SD_RISR_CARD_REMOVE
      status := s.status &&& compl32 SD_STAR_CARD_PRESENT }

/-- `aw_h3_sdhost_send_command`: clear LOAD, talk to the bus unless
CLKCHANGE is set, decode the response, raise CMD_COMPLETE, or raise
NO_RESPONSE on the `goto error` paths. -/
def aw_h3_sdhost_send_command (card : SDBusCard) (s : AwH3SDHostState) :
    AwH3SDHostState :=
  let s1 := { s with command := s.command &&& compl32 SD_CMDR_LOAD }
  if s1.command &&& SD_CMDR_CLKCHANGE = 0 then
    match card.respond (s1.command &&& SD_CMDR_CMDID_MASK) s1.command_arg with
    | none => { s1 with irq_status := s1.irq_status ||| SD_RISR_NO_RESPONSE }
    | some resp =>
      if s1.command &&& SD_CMDR_RESPONSE ≠ 0 then
        if resp.length = 0 ∨
            (resp.length = 4 ∧ s1.command &&& SD_CMDR_RESPONSE_LONG ≠ 0) then
          { s1 with irq_status := s1.irq_status ||| SD_RISR_NO_RESPONSE }
        else if resp.length ≠ 4 ∧ resp.length ≠ 16 then
          { s1 with irq_status := s1.irq_status ||| SD_RISR_NO_RESPONSE }
        else if resp.length = 4 then
          { s1 with
            response0 := ldl_be resp 0
            response1 := 0
            response2 := 0
            response3 := 0
            irq_status := s1.irq_status ||| SD_RISR_CMD_COMPLETE }
        else
          { s1 with
            response0 := ldl_be resp 12
            response1 := ldl_be resp 8
            response2 := ldl_be resp 4
            response3 := ldl_be resp 0
            irq_status := s1.irq_status ||| SD_RISR_CMD_COMPLETE }
      else { s1 with irq_status := s1.irq_status ||| SD_RISR_CMD_COMPLETE }
  else { s1 with irq_status := s1.irq_status ||| SD_RISR_CMD_COMPLETE }

/-- `aw_h3_sdhost_auto_stop`: inject CMD12 when AUTOSTOP is set and
`transfer_cnt` is zero, saving and restoring `command`/`command_arg`. -/
def aw_h3_sdhost_auto_stop (card : SDBusCard) (s : AwH3SDHostState) :
    AwH3SDHostState :=
  if s.command &&& SD_CMDR_AUTOSTOP ≠ 0 ∧ s.transfer_cnt = 0 then
    let saved_cmd := s.command
    let saved_arg := s.command_arg
    let s := { s with
      command := (s.command &&& compl32 SD_CMDR_CMDID_MASK) ||| 12
      command_arg := 0 }
    let s := aw_h3_sdhost_send_command card s
    { s with command := saved_cmd, command_arg := saved_arg }
  else s

/-- A DMA transfer descriptor, as read from guest memory. -/
structure TransferDescriptor where
  status : Nat
  size : Nat
  addr : Nat
  next : Nat

/-- Read a 16-byte descriptor from guest memory (little-endian fields). -/
def readDescMem (m : Nat → Nat) (a : Nat) : TransferDescriptor :=
  { status := ldl_le_mem m a
    size := ldl_le_mem m (a + 4)
    addr := ldl_le_mem m (a + 8)
    next := ldl_le_mem m (a + 12) }

/-- Flush a descriptor back to guest memory. -/
def storeDescMem (m : Nat → Nat) (a : Nat) (d : TransferDescriptor) :
    Nat → Nat :=
  writeBytesMem m a
    (bytesOfU32 d.status ++ bytesOfU32 d.size ++ bytesOfU32 d.addr ++
      bytesOfU32 d.next)

/-- One iteration of the inner copy loop of `aw_h3_sdhost_process_desc`:
move `buf_bytes` bytes through the 1 KiB bounce buffer, either from guest
memory onto the bus (`is_write`) or from the bus into guest memory. -/
def processChunk (w : World) (is_write : Bool) (base num_done buf_bytes : Nat) :
    World :=
  if is_write then
    let buf := (List.range buf_bytes).map (fun i => w.mem (base + num_done + i) % 256)
    (buf.foldl busWrite w)
  else
    let buf := (List.range buf_bytes).map (fun i => w.card.readData (w.readCursor + i) % 256)
    { w with
      readCursor := w.readCursor + buf_bytes
      mem := writeBytesMem w.mem (base + num_done) buf }

/-- The inner `while (num_done < num_bytes)` loop of
`aw_h3_sdhost_process_desc`, with explicit fuel.  Each iteration moves
`min (num_bytes - num_done) 1024` bytes, so `num_bytes` units of fuel
are always sufficient (proved below). -/
def processLoop (fuel : Nat) (w : World) (is_write : Bool)
    (base num_bytes num_done : Nat) : World × Nat :=
  match fuel with
  | 0 => (w, num_done)
  | fuel + 1 =>
    if num_done < num_bytes then
      let buf_bytes := min (num_bytes - num_done) 1024
      processLoop fuel (processChunk w is_write base num_done buf_bytes)
        is_write base num_bytes (num_done + buf_bytes)
    else (w, num_done)

/-- `aw_h3_sdhost_process_desc`: read the descriptor at `desc_addr`,
inflate `size == 0` to 64 KiB, move `min size max_bytes` bytes, clear the
HOLD flag and flush the descriptor.  Returns the new world, the (fixed-up)
descriptor, and `num_done`. -/
def aw_h3_sdhost_process_desc (w : World) (desc_addr : Nat) (is_write : Bool)
    (max_bytes : Nat) : World × TransferDescriptor × Nat :=
  let desc := readDescMem w.mem desc_addr
  let desc := if desc.size = 0 then { desc with size := 0xffff + 1 } else desc
  let num_bytes := if desc.size < max_bytes then desc.size else max_bytes
  let r := processLoop num_bytes w is_write (desc.addr &&& DESC_SIZE_MASK)
    num_bytes 0
  let desc := { desc with status := desc.status &&& compl32 DESC_STATUS_HOLD }
  ({ r.1 with mem := storeDescMem r.1.mem desc_addr desc }, desc, r.2)

/-- The `while (s->byte_count > 0)` descriptor walk of
`aw_h3_sdhost_dma`, with explicit fuel (`none` means the fuel ran out;
`s.byte_count` units are always sufficient, proved below, because each
processed descriptor moves at least one byte). -/
def dmaLoop (fuel : Nat) (is_write : Bool) (w : World) (s : AwH3SDHostState)
    (desc_addr : Nat) : Option (World × AwH3SDHostState) :=
  if s.byte_count = 0 then some (w, s)
  else
    match fuel with
    | 0 => none
    | fuel + 1 =>
      let r := aw_h3_sdhost_process_desc w desc_addr is_write s.byte_count
      let w := r.1
      let desc := r.2.1
      let bytes_done := r.2.2
      let s := aw_h3_sdhost_update_transfer_cnt s bytes_done
      let s := if bytes_done ≤ s.byte_count then
          { s with byte_count := s.byte_count - bytes_done }
        else
          { s with byte_count := 0 }
      if desc.status &&& DESC_STATUS_LAST ≠ 0 then some (w, s)
      else dmaLoop fuel is_write w s desc.next

/-- `aw_h3_sdhost_dma`: entry checks, the descriptor walk, and the final
DATA_COMPLETE/AUTOCMD_DONE and DMAC status updates. -/
def aw_h3_sdhost_dma (w : World) (s : AwH3SDHostState) :
    Option (World × AwH3SDHostState) :=
  let is_write : Bool := s.command &&& SD_CMDR_WRITE != 0
  if s.byte_count = 0 ∨ s.block_size = 0 ∨
      s.global_ctl &&& SD_GCTL_DMA_ENB = 0 then
    some (w, s)
  else if is_write = false ∧ w.card.dataReady = false then
    some (w, s)
  else
    match dmaLoop s.byte_count is_write w s s.desc_base with
    | none => none
    | some (w, s) =>
      let s := { s with irq_status :=
          s.irq_status ||| (SD_RISR_DATA_COMPLETE ||| SD_RISR_AUTOCMD_DONE) }
      let s := if is_write then
          { s with dmac_status := s.dmac_status ||| SD_IDST_TRANSMIT_IRQ }
        else
          { s with dmac_status :=
              s.dmac_status ||| (SD_IDST_SUM_RECEIVE_IRQ ||| SD_IDST_RECEIVE_IRQ) }
      some (w, s)

/-- `aw_h3_sdhost_write`: the MMIO write dispatch.  `value` is the MMIO
payload (the surrounding bus layer only delivers 32-bit accesses).  Each
call to `aw_h3_sdhost_update_irq` at the end of a branch changes no state
and is omitted.  The CMDR branch falls back to the unchanged pair if the
DMA walk were to run out of fuel; `dma_isSome` below shows this never
happens. -/
def aw_h3_sdhost_write (w : World) (s : AwH3SDHostState)
    (offset value : Nat) : World × AwH3SDHostState :=
  if offset = 0x00 then      -- REG_SD_GCTL
    (w, { s with global_ctl := (u32 value &&&
        compl32 (SD_GCTL_DMA_RST ||| SD_GCTL_FIFO_RST ||| SD_GCTL_SOFT_RST)) })
  else if offset = 0x04 then -- REG_SD_CKCR
    (w, { s with clock_ctl := u32 value })
  else if offset = 0x08 then -- REG_SD_TMOR
    (w, { s with timeout := u32 value })
  else if offset = 0x0C then -- REG_SD_BWDR
    (w, { s with bus_width := u32 value })
  else if offset = 0x10 then -- REG_SD_BKSR
    (w, { s with block_size := u32 value })
  else if offset = 0x14 then -- REG_SD_BYCR
    (w, { s with byte_count := u32 value, transfer_cnt := u32 value })
  else if offset = 0x18 then -- REG_SD_CMDR
    let s := { s with command := u32 value }
    if value &&& SD_CMDR_LOAD ≠ 0 then
      let s := aw_h3_sdhost_send_command w.card s
      match aw_h3_sdhost_dma w s with
      | some (w, s) => (w, aw_h3_sdhost_auto_stop w.card s)
      | none => (w, s)
    else (w, s)
  else if offset = 0x1C then -- REG_SD_CAGR
    (w, { s with command_arg := u32 value })
  else if offset = 0x20 then -- REG_SD_RESP0
    (w, { s with response0 := u32 value })
  else if offset = 0x24 then -- REG_SD_RESP1
    (w, { s with response1 := u32 value })
  else if offset = 0x28 then -- REG_SD_RESP2
    (w, { s with response2 := u32 value })
  else if offset = 0x2C then -- REG_SD_RESP3
    (w, { s with response3 := u32 value })
  else if offset = 0x30 then -- REG_SD_IMKR
    (w, { s with irq_mask := u32 value })
  else if offset = 0x34 ∨ offset = 0x38 then -- REG_SD_MISR, REG_SD_RISR
    (w, { s with irq_status := u32 (s.irq_status &&& compl64 value) })
  else if offset = 0x3C then -- REG_SD_STAR
    (w, { s with status := u32 (s.status &&& compl64 value) })
  else if offset = 0x40 then -- REG_SD_FWLR
    (w, { s with fifo_wlevel := u32 value })
  else if offset = 0x44 then -- REG_SD_FUNS
    (w, { s with fifo_func_sel := u32 value })
  else if offset = 0x50 then -- REG_SD_DBGC
    (w, { s with debug_enable := u32 value })
  else if offset = 0x58 then -- REG_SD_A12A
    (w, { s with auto12_arg := u32 value })
  else if offset = 0x5C then -- REG_SD_NTSR
    (w, { s with newtiming_set := u32 value })
  else if offset = 0x60 then -- REG_SD_SDBG
    (w, { s with newtiming_debug := u32 value })
  else if offset = 0x78 then -- REG_SD_HWRST
    (w, { s with hardware_rst := u32 value })
  else if offset = 0x80 then -- REG_SD_DMAC
    (w, { s with dmac := u32 value })
  else if offset = 0x84 then -- REG_SD_DLBA
    (w, { s with desc_base := u32 value })
  else if offset = 0x88 then -- REG_SD_IDST
    (w, { s with dmac_status := u32 (s.dmac_status &&&
        (compl64 SD_IDST_WR_MASK ||| (compl64 value &&& SD_IDST_WR_MASK))) })
  else if offset = 0x8C then -- REG_SD_IDIE
    (w, { s with dmac_irq := u32 value })
  else if offset = 0x100 then -- REG_SD_THLDC
    (w, { s with card_threshold := u32 value })
  else if offset = 0x10C then -- REG_SD_DSBD
    (w, { s with startbit_detect := u32 value })
  else if offset = 0x200 then -- REG_SD_FIFO
    let w := busWrite w (value &&& 0xff)
    let w := busWrite w ((value >>> 8) &&& 0xff)
    let w := busWrite w ((value >>> 16) &&& 0xff)
    let w := busWrite w ((value >>> 24) &&& 0xff)
    let s := aw_h3_sdhost_update_transfer_cnt s 4
    let s := aw_h3_sdhost_auto_stop w.card s
    (w, s)
  else
    -- CRC registers (0x110..0x134) ignore writes; unknown offsets are
    -- logged and discarded.  No state change either way.
    (w, s)

/-- `aw_h3_sdhost_read`: the MMIO read dispatch.  Returns the new world
and state (only the FIFO read has side effects) and the read value. -/
def aw_h3_sdhost_read (w : World) (s : AwH3SDHostState) (offset : Nat) :
    World × AwH3SDHostState × Nat :=
  if offset = 0x00 then (w, s, s.global_ctl)
  else if offset = 0x04 then (w, s, s.clock_ctl)
  else if offset = 0x08 then (w, s, s.timeout)
  else if offset = 0x0C then (w, s, s.bus_width)
  else if offset = 0x10 then (w, s, s.block_size)
  else if offset = 0x14 then (w, s, s.byte_count)
  else if offset = 0x18 then (w, s, s.command)
  else if offset = 0x1C then (w, s, s.command_arg)
  else if offset = 0x20 then (w, s, s.response0)
  else if offset = 0x24 then (w, s, s.response1)
  else if offset = 0x28 then (w, s, s.response2)
  else if offset = 0x2C then (w, s, s.response3)
  else if offset = 0x30 then (w, s, s.irq_mask)
  else if offset = 0x34 then (w, s, s.irq_status &&& s.irq_mask)
  else if offset = 0x38 then (w, s, s.irq_status)
  else if offset = 0x3C then (w, s, s.status)
  else if offset = 0x40 then (w, s, s.fifo_wlevel)
  else if offset = 0x44 then (w, s, s.fifo_func_sel)
  else if offset = 0x50 then (w, s, s.debug_enable)
  else if offset = 0x58 then (w, s, s.auto12_arg)
  else if offset = 0x5C then (w, s, s.newtiming_set)
  else if offset = 0x60 then (w, s, s.newtiming_debug)
  else if offset = 0x78 then (w, s, s.hardware_rst)
  else if offset = 0x80 then (w, s, s.dmac)
  else if offset = 0x84 then (w, s, s.desc_base)
  else if offset = 0x88 then (w, s, s.dmac_status)
  else if offset = 0x8C then (w, s, s.dmac_irq)
  else if offset = 0x100 then (w, s, s.card_threshold)
  else if offset = 0x10C then (w, s, s.startbit_detect)
  else if offset = 0x110 then (w, s, s.response_crc)
  else if 0x114 ≤ offset ∧ offset ≤ 0x130 ∧ (offset - 0x114) % 4 = 0 then
    (w, s, s.data_crc.getD ((offset - 0x114) / 4) 0)
  else if offset = 0x134 then (w, s, s.status_crc)
  else if offset = 0x200 then -- REG_SD_FIFO (PIO read)
    if w.card.dataReady then
      let b0 := w.card.readData w.readCursor % 256
      let b1 := w.card.readData (w.readCursor + 1) % 256
      let b2 := w.card.readData (w.readCursor + 2) % 256
      let b3 := w.card.readData (w.readCursor + 3) % 256
      let res := b0 ||| (b1 <<< 8) ||| (b2 <<< 16) ||| (b3 <<< 24)
      let w := { w with readCursor := w.readCursor + 4 }
      let s := aw_h3_sdhost_update_transfer_cnt s 4
      let s := aw_h3_sdhost_auto_stop w.card s
      (w, s, res)
    else (w, s, 0)
  else (w, s, 0)

/-- `aw_h3_sdhost_reset`: the reset values of every register. -/
def aw_h3_sdhost_reset : AwH3SDHostState :=
  { global_ctl := 0x00000300
    clock_ctl := 0
    timeout := 0xFFFFFF40
    bus_width := 0
    block_size := 0x00000200
    byte_count := 0x00000200
    transfer_cnt := 0
    command := 0
    command_arg := 0
    response0 := 0
    response1 := 0
    response2 := 0
    response3 := 0
    irq_mask := 0
    irq_status := 0
    status := 0x00000100
    fifo_wlevel := 0x000F0000
    fifo_func_sel := 0
    debug_enable := 0
    auto12_arg := 0x0000FFFF
    newtiming_set := 0x00000001
    newtiming_debug := 0
    hardware_rst := 0x00000001
    dmac := 0
    desc_base := 0
    dmac_status := 0
    dmac_irq := 0
    card_threshold := 0
    startbit_detect := 0
    response_crc := 0
    data_crc := List.replicate 8 0
    status_crc := 0 }

/-- One externally triggered transition of the device: an MMIO write
(32-bit payloads only, per the bus contract), an MMIO read, or a
card-insertion callback. -/
inductive Step : World × AwH3SDHostState → World × AwH3SDHostState → Prop
  | write (w : World) (s : AwH3SDHostState) (off v : Nat) (hv : v < 2 ^ 32) :
      Step (w, s) (aw_h3_sdhost_write w s off v)
  | read (w : World) (s : AwH3SDHostState) (off : Nat) :
      Step (w, s) ((aw_h3_sdhost_read w s off).1, (aw_h3_sdhost_read w s off).2.1)
  | insert (w : World) (s : AwH3SDHostState) (b : Bool) :
      Step (w, s) (w, aw_h3_sdhost_set_inserted s b)

/-- Device configurations reachable from reset under any environment and
any sequence of MMIO reads, MMIO writes and card-insertion callbacks. -/
inductive Reachable : World × AwH3SDHostState → Prop
  | init (w : World) : Reachable (w, aw_h3_sdhost_reset)
  | step {p q} : Reachable p → Step p q → Reachable q

/-! Concrete sample environments and states, used to evaluate the model
on closed inputs. -/

/-- A card that answers every command with the 16 response bytes
0x00, 0x01, ..., 0x0F. -/
def cardR16 : SDBusCard :=
  { respond := fun _ _ => some (List.range 16)
    dataReady := true
    readData := fun _ => 0 }

/-- A card that answers every command with the 4 response bytes
0x11, 0x22, 0x33, 0x44. -/
def cardR4 : SDBusCard :=
  { respond := fun _ _ => some [0x11, 0x22, 0x33, 0x44]
    dataReady := true
    readData := fun _ => 0 }

/-- A card on which every command fails. -/
def cardNoResp : SDBusCard :=
  { respond := fun _ _ => none
    dataReady := false
    readData := fun _ => 0 }

def worldR16 : World := { card := cardR16, mem := fun _ => 0, readCursor := 0, written := [] }

def worldR4 : World := { card := cardR4, mem := fun _ => 0, readCursor := 0, written := [] }

def worldNoResp : World :=
  { card := cardNoResp, mem := fun _ => 0, readCursor := 0, written := [] }

/-- Reset state with a short-response command (RESPONSE set, LONG clear). -/
def sRespShort : AwH3SDHostState :=
  { aw_h3_sdhost_reset with command := SD_CMDR_RESPONSE }

/-- Reset state with a long-response command (RESPONSE and LONG set). -/
def sRespLong : AwH3SDHostState :=
  { aw_h3_sdhost_reset with
    command := SD_CMDR_RESPONSE ||| SD_CMDR_RESPONSE_LONG }

/-- Reset state configured for a two-byte DMA write transfer. -/
def sDmaWr : AwH3SDHostState :=
  { aw_h3_sdhost_reset with
    byte_count := 2
    global_ctl := 0x300 ||| SD_GCTL_DMA_ENB
    command := SD_CMDR_WRITE }

/-- Reset state with AUTOSTOP and RESPONSE set and a finished transfer. -/
def sAutoStop : AwH3SDHostState :=
  { aw_h3_sdhost_reset with
    command := SD_CMDR_AUTOSTOP ||| SD_CMDR_RESPONSE
    command_arg := 0x55AA
    transfer_cnt := 0 }

/-- Reset state with a few interrupt and status bits raised. -/
def sBitsUp : AwH3SDHostState :=
  { aw_h3_sdhost_reset with irq_status := 0xFF, status := 0x1FF }

/-- Reset state with a nonzero DMAC status. -/
def sIdst : AwH3SDHostState :=
  { aw_h3_sdhost_reset with dmac_status := 0xABCDEF }

end AwH3

namespace AwH3

/-! ## General bit-manipulation helper lemmas -/

theorem land_const_absorb (x a b : Nat) (h : a &&& b = b) :
    (x &&& a) &&& b = x &&& b := by
  rw [Nat.and_assoc, h]

theorem land_const_kill (x a b : Nat) (h : a &&& b = 0) :
    (x &&& a) &&& b = 0 := by
  rw [Nat.and_assoc, h, Nat.and_zero]

theorem lor_land_self (a m : Nat) : (a ||| m) &&& m = m := by
  apply Nat.eq_of_testBit_eq
  intro i
  simp only [Nat.testBit_and, Nat.testBit_or]
  cases a.testBit i <;> cases m.testBit i <;> rfl

theorem lor_land_split (a b m : Nat) :
    (a ||| b) &&& m = (a &&& m) ||| (b &&& m) :=
  Nat.and_distrib_right a b m

theorem testBit_false_of_lt {a n : Nat} (ha : a < 2 ^ n) {i : Nat}
    (hi : n ≤ i) : a.testBit i = false :=
  Nat.testBit_lt_two_pow
    (lt_of_lt_of_le ha (Nat.pow_le_pow_right (by omega) hi))

theorem u32_land_compl64 {a : Nat} (v : Nat) (ha : a < 2 ^ 32) :
    u32 (a &&& compl64 v) = a &&& compl32 v := by
  unfold u32 compl64 compl32
  rw [Nat.mod_eq_of_lt (lt_of_le_of_lt Nat.and_le_left ha)]
  apply Nat.eq_of_testBit_eq
  intro i
  simp only [Nat.testBit_and, Nat.testBit_xor, Nat.testBit_two_pow_sub_one]
  by_cases h32 : i < 32
  · simp [h32, Nat.lt_trans h32 (by omega : (32 : Nat) < 64)]
  · rw [testBit_false_of_lt ha (by omega)]
    rfl

/-- The original IDST mask expression (64-bit complement semantics of the
source line) agrees with write-one-to-clear under the mask. -/
theorem idst_mask_equiv {d : Nat} (hd : d < 2 ^ 32) (v : Nat) :
    u32 (d &&& (compl64 SD_IDST_WR_MASK ||| (compl64 v &&& SD_IDST_WR_MASK))) =
      d &&& compl32 (v &&& SD_IDST_WR_MASK) := by
  unfold u32 compl64 compl32 SD_IDST_WR_MASK
  rw [Nat.mod_eq_of_lt (lt_of_le_of_lt Nat.and_le_left hd)]
  apply Nat.eq_of_testBit_eq
  intro i
  have h3ff : (0x3ff : Nat) = 2 ^ 10 - 1 := by norm_num
  simp only [h3ff, Nat.testBit_and, Nat.testBit_or, Nat.testBit_xor,
    Nat.testBit_two_pow_sub_one]
  by_cases h10 : i < 10
  · have h64 : i < 64 := by omega
    have h32 : i < 32 := by omega
    simp only [h10, h64, h32, decide_True]
    cases d.testBit i <;> cases v.testBit i <;> rfl
  · by_cases h32 : i < 32
    · have h64 : i < 64 := by omega
      simp only [h10, h64, h32, decide_True, decide_False]
      cases d.testBit i <;> cases v.testBit i <;> rfl
    · rw [testBit_false_of_lt hd (by omega)]
      cases v.testBit i <;> rfl

/-! ## Preservation lemmas for the state-mutating operations -/

theorem utc_global_ctl (s : AwH3SDHostState) (b : Nat) :
    (aw_h3_sdhost_update_transfer_cnt s b).global_ctl = s.global_ctl := by
  simp only [aw_h3_sdhost_update_transfer_cnt]
  split <;> split <;> rfl

theorem utc_command (s : AwH3SDHostState) (b : Nat) :
    (aw_h3_sdhost_update_transfer_cnt s b).command = s.command := by
  simp only [aw_h3_sdhost_update_transfer_cnt]
  split <;> split <;> rfl

theorem utc_command_arg (s : AwH3SDHostState) (b : Nat) :
    (aw_h3_sdhost_update_transfer_cnt s b).command_arg = s.command_arg := by
  simp only [aw_h3_sdhost_update_transfer_cnt]
  split <;> split <;> rfl

theorem utc_byte_count (s : AwH3SDHostState) (b : Nat) :
    (aw_h3_sdhost_update_transfer_cnt s b).byte_count = s.byte_count := by
  simp only [aw_h3_sdhost_update_transfer_cnt]
  split <;> split <;> rfl

theorem sendCommand_global_ctl (card : SDBusCard) (s : AwH3SDHostState) :
    (aw_h3_sdhost_send_command card s).global_ctl = s.global_ctl := by
  simp only [aw_h3_sdhost_send_command]
  repeat' split
  all_goals rfl

theorem sendCommand_command (card : SDBusCard) (s : AwH3SDHostState) :
    (aw_h3_sdhost_send_command card s).command =
      s.command &&& compl32 SD_CMDR_LOAD := by
  simp only [aw_h3_sdhost_send_command]
  repeat' split
  all_goals rfl

theorem autoStop_global_ctl (card : SDBusCard) (s : AwH3SDHostState) :
    (aw_h3_sdhost_auto_stop card s).global_ctl = s.global_ctl := by
  simp only [aw_h3_sdhost_auto_stop]
  split
  · simp [sendCommand_global_ctl]
  · rfl

theorem autoStop_command (card : SDBusCard) (s : AwH3SDHostState) :
    (aw_h3_sdhost_auto_stop card s).command = s.command := by
  simp only [aw_h3_sdhost_auto_stop]
  split <;> rfl

theorem autoStop_command_arg (card : SDBusCard) (s : AwH3SDHostState) :
    (aw_h3_sdhost_auto_stop card s).command_arg = s.command_arg := by
  simp only [aw_h3_sdhost_auto_stop]
  split <;> rfl

end AwH3

namespace AwH3

/-! ## Termination of the DMA walk -/

/-- The inner copy loop reaches its target: `num_bytes` units of fuel
suffice because every iteration moves at least one byte. -/
theorem processLoop_ge (fuel : Nat) : ∀ (w : World) (iw : Bool)
    (base nb nd : Nat), nb ≤ nd + fuel →
    nb ≤ (processLoop fuel w iw base nb nd).2 := by
  induction fuel with
  | zero =>
    intro w iw base nb nd h
    simpa [processLoop] using h
  | succ fuel ih =>
    intro w iw base nb nd h
    simp only [processLoop]
    split
    · next hlt => exact ih _ _ _ _ _ (by omega)
    · next hge => simpa using (by omega : nb ≤ nd)

/-- The inner copy loop never moves more than its target. -/
theorem processLoop_le (fuel : Nat) : ∀ (w : World) (iw : Bool)
    (base nb nd : Nat), nd ≤ nb →
    (processLoop fuel w iw base nb nd).2 ≤ nb := by
  induction fuel with
  | zero =>
    intro w iw base nb nd h
    simpa [processLoop] using h
  | succ fuel ih =>
    intro w iw base nb nd h
    simp only [processLoop]
    split
    · next hlt => exact ih _ _ _ _ _ (by omega)
    · next hge => simpa using h

/-- A processed descriptor moves at least one byte whenever there is at
least one byte left to move. -/
theorem process_desc_pos (w : World) (a : Nat) (iw : Bool) {mb : Nat}
    (h : 1 ≤ mb) : 1 ≤ (aw_h3_sdhost_process_desc w a iw mb).2.2 := by
  simp only [aw_h3_sdhost_process_desc]
  refine le_trans ?_ (processLoop_ge _ _ _ _ _ _ (by omega))
  split <;> ((try dsimp only); split <;> omega)

/-- A processed descriptor never moves more than `max_bytes` bytes. -/
theorem process_desc_le (w : World) (a : Nat) (iw : Bool) (mb : Nat) :
    (aw_h3_sdhost_process_desc w a iw mb).2.2 ≤ mb := by
  simp only [aw_h3_sdhost_process_desc]
  refine le_trans (processLoop_le _ _ _ _ _ _ (by omega)) ?_
  split <;> ((try dsimp only); split <;> omega)

/-- Fuel sufficiency for the descriptor walk: `byte_count` units of fuel
always complete the walk, because `byte_count` strictly decreases. -/
theorem dmaLoop_isSome (fuel : Nat) : ∀ (iw : Bool) (w : World)
    (s : AwH3SDHostState) (a : Nat), s.byte_count ≤ fuel →
    (dmaLoop fuel iw w s a).isSome = true := by
  induction fuel with
  | zero =>
    intro iw w s a h
    have h0 : s.byte_count = 0 := by omega
    simp [dmaLoop, h0]
  | succ fuel ih =>
    intro iw w s a h
    by_cases h0 : s.byte_count = 0
    · simp [dmaLoop, h0]
    · have hbd : 1 ≤ (aw_h3_sdhost_process_desc w a iw s.byte_count).2.2 :=
        process_desc_pos _ _ _ (by omega)
      simp only [dmaLoop, h0, if_false]
      split
      · rfl
      · apply ih
        split
        · next hle =>
          dsimp only
          rw [utc_byte_count] at hle ⊢
          omega
        · simp


/-- The DMA entry point never runs out of fuel. -/
theorem dma_isSome (w : World) (s : AwH3SDHostState) :
    (aw_h3_sdhost_dma w s).isSome = true := by
  simp only [aw_h3_sdhost_dma]
  split
  · rfl
  · split
    · rfl
    · have h := dmaLoop_isSome s.byte_count (s.command &&& SD_CMDR_WRITE != 0)
        w s s.desc_base (le_refl _)
      rcases hm : dmaLoop s.byte_count (s.command &&& SD_CMDR_WRITE != 0)
          w s s.desc_base with _ | p
      · rw [hm] at h
        simp at h
      · simp

/-- The descriptor walk leaves `global_ctl` untouched. -/
theorem dmaLoop_global_ctl (fuel : Nat) : ∀ (iw : Bool) (w : World)
    (s : AwH3SDHostState) (a : Nat) (w' : World) (s' : AwH3SDHostState),
    dmaLoop fuel iw w s a = some (w', s') → s'.global_ctl = s.global_ctl := by
  induction fuel with
  | zero =>
    intro iw w s a w' s' hm
    simp only [dmaLoop] at hm
    split at hm
    · simp only [Option.some.injEq, Prod.mk.injEq] at hm
      rw [← hm.2]
    · exact absurd hm (by simp)
  | succ fuel ih =>
    intro iw w s a w' s' hm
    simp only [dmaLoop] at hm
    split at hm
    · simp only [Option.some.injEq, Prod.mk.injEq] at hm
      rw [← hm.2]
    · split at hm
      · simp only [Option.some.injEq, Prod.mk.injEq] at hm
        rw [← hm.2]
        split <;> simp [utc_global_ctl]
      · have := ih _ _ _ _ _ _ hm
        rw [this]
        split <;> simp [utc_global_ctl]

/-- The descriptor walk leaves `command` untouched. -/
theorem dmaLoop_command (fuel : Nat) : ∀ (iw : Bool) (w : World)
    (s : AwH3SDHostState) (a : Nat) (w' : World) (s' : AwH3SDHostState),
    dmaLoop fuel iw w s a = some (w', s') → s'.command = s.command := by
  induction fuel with
  | zero =>
    intro iw w s a w' s' hm
    simp only [dmaLoop] at hm
    split at hm
    · simp only [Option.some.injEq, Prod.mk.injEq] at hm
      rw [← hm.2]
    · exact absurd hm (by simp)
  | succ fuel ih =>
    intro iw w s a w' s' hm
    simp only [dmaLoop] at hm
    split at hm
    · simp only [Option.some.injEq, Prod.mk.injEq] at hm
      rw [← hm.2]
    · split at hm
      · simp only [Option.some.injEq, Prod.mk.injEq] at hm
        rw [← hm.2]
        split <;> simp [utc_command]
      · have := ih _ _ _ _ _ _ hm
        rw [this]
        split <;> simp [utc_command]

/-- The DMA entry point leaves `global_ctl` untouched. -/
theorem dma_global_ctl {w : World} {s : AwH3SDHostState} {w' : World}
    {s' : AwH3SDHostState} (hm : aw_h3_sdhost_dma w s = some (w', s')) :
    s'.global_ctl = s.global_ctl := by
  simp only [aw_h3_sdhost_dma] at hm
  split at hm
  · simp only [Option.some.injEq, Prod.mk.injEq] at hm
    rw [← hm.2]
  · split at hm
    · simp only [Option.some.injEq, Prod.mk.injEq] at hm
      rw [← hm.2]
    · rcases hl : dmaLoop s.byte_count (s.command &&& SD_CMDR_WRITE != 0)
          w s s.desc_base with _ | p
      · rw [hl] at hm
        exact absurd hm (by simp)
      · rw [hl] at hm
        simp only [Option.some.injEq, Prod.mk.injEq] at hm
        have hp := dmaLoop_global_ctl _ _ _ _ _ _ _ hl
        rw [← hm.2]
        split <;> simpa using hp

/-- The DMA entry point leaves `command` untouched. -/
theorem dma_command {w : World} {s : AwH3SDHostState} {w' : World}
    {s' : AwH3SDHostState} (hm : aw_h3_sdhost_dma w s = some (w', s')) :
    s'.command = s.command := by
  simp only [aw_h3_sdhost_dma] at hm
  split at hm
  · simp only [Option.some.injEq, Prod.mk.injEq] at hm
    rw [← hm.2]
  · split at hm
    · simp only [Option.some.injEq, Prod.mk.injEq] at hm
      rw [← hm.2]
    · rcases hl : dmaLoop s.byte_count (s.command &&& SD_CMDR_WRITE != 0)
          w s s.desc_base with _ | p
      · rw [hl] at hm
        exact absurd hm (by simp)
      · rw [hl] at hm
        simp only [Option.some.injEq, Prod.mk.injEq] at hm
        have hp := dmaLoop_command _ _ _ _ _ _ _ hl
        rw [← hm.2]
        split <;> simpa using hp

end AwH3

namespace AwH3

theorem land_ff_mod (x : Nat) : (x &&& 0xff) % 256 = x &&& 0xff :=
  Nat.mod_eq_of_lt (lt_of_le_of_lt Nat.and_le_right (by norm_num))

/-! ## Claim C2 -/

/-- C2 counterexample: writing 0xDEADBEEF to the FIFO register pushes the
bytes 0xEF, 0xBE, 0xAD, 0xDE onto the bus (little-endian order), not the
sequence 0xEF, 0xAD, 0xDE, 0xBE stated in the claim. -/
theorem claim2_counterexample :
    (aw_h3_sdhost_write worldR16 aw_h3_sdhost_reset 0x200 0xDEADBEEF).1.written =
      [0xEF, 0xBE, 0xAD, 0xDE] ∧
    [(0xEF : Nat), 0xBE, 0xAD, 0xDE] ≠ [0xEF, 0xAD, 0xDE, 0xBE] := by
  constructor
  · rfl
  · decide

/-- C2 (amended): every 32-bit value written to the FIFO register at
offset 0x200 results in exactly four `sdbus_write_data` calls carrying
the value's four little-endian bytes in order; in particular, writing
0xDEADBEEF produces the byte sequence 0xEF, 0xBE, 0xAD, 0xDE. -/
theorem claim2_amended :
    (∀ (w : World) (s : AwH3SDHostState) (v : Nat),
      (aw_h3_sdhost_write w s 0x200 v).1.written = w.written ++
        [v &&& 0xff, (v >>> 8) &&& 0xff, (v >>> 16) &&& 0xff,
         (v >>> 24) &&& 0xff]) ∧
    (aw_h3_sdhost_write worldR16 aw_h3_sdhost_reset 0x200 0xDEADBEEF).1.written =
      [0xEF, 0xBE, 0xAD, 0xDE] := by
  constructor
  · intro w s v
    simp [aw_h3_sdhost_write, busWrite, land_ff_mod]
  · rfl

/-! ## Claim C3 -/

/-- C3 counterexample: the state reached from reset by acknowledging the
raw interrupt status (a W1C write of 0xFFFFFFFF to RISR) has
`transfer_cnt == 0` but neither DATA_COMPLETE nor AUTOCMD_DONE set, so
`transfer_cnt == 0` does not imply those bits in every reachable state. -/
theorem claim3_counterexample :
    Reachable (aw_h3_sdhost_write worldR16 aw_h3_sdhost_reset 0x38 0xFFFFFFFF) ∧
    (aw_h3_sdhost_write worldR16 aw_h3_sdhost_reset 0x38 0xFFFFFFFF).2.transfer_cnt = 0 ∧
    (aw_h3_sdhost_write worldR16 aw_h3_sdhost_reset 0x38 0xFFFFFFFF).2.irq_status &&&
      (SD_RISR_DATA_COMPLETE ||| SD_RISR_AUTOCMD_DONE) = 0 :=
  ⟨Reachable.step (Reachable.init worldR16)
      (Step.write worldR16 aw_h3_sdhost_reset 0x38 0xFFFFFFFF (by norm_num)),
    by decide, by decide⟩

/-- C3 (amended): immediately after any transfer-counter update,
`transfer_cnt == 0` implies that DATA_COMPLETE and AUTOCMD_DONE are both
set in `irq_status`.  (The implication is not invariant under further
MMIO activity: a W1C acknowledgment of RISR, or a BYCR write of zero,
clears the bits while `transfer_cnt` stays zero.) -/
theorem claim3_amended (s : AwH3SDHostState) (bytes : Nat)
    (h : (aw_h3_sdhost_update_transfer_cnt s bytes).transfer_cnt = 0) :
    (aw_h3_sdhost_update_transfer_cnt s bytes).irq_status &&&
      (SD_RISR_DATA_COMPLETE ||| SD_RISR_AUTOCMD_DONE) =
      (SD_RISR_DATA_COMPLETE ||| SD_RISR_AUTOCMD_DONE) := by
  simp only [aw_h3_sdhost_update_transfer_cnt] at h ⊢
  split at h <;> split at h <;> simp_all [lor_land_self]

/-- C3 witness: a concrete transfer-counter update that reaches zero. -/
theorem claim3_witness :
    (aw_h3_sdhost_update_transfer_cnt
      { aw_h3_sdhost_reset with transfer_cnt := 1 } 4).transfer_cnt = 0 ∧
    (aw_h3_sdhost_update_transfer_cnt
      { aw_h3_sdhost_reset with transfer_cnt := 1 } 4).irq_status &&&
      (SD_RISR_DATA_COMPLETE ||| SD_RISR_AUTOCMD_DONE) =
      (SD_RISR_DATA_COMPLETE ||| SD_RISR_AUTOCMD_DONE) :=
  ⟨by decide, claim3_amended _ 4 (by decide)⟩

/-! ## Claim C4 -/

/-- C4: an MMIO write of `v` to IDST (offset 0x88), whose source
expression is `dmac_status &= (~WR_MASK) | (~value & WR_MASK)`, leaves
`dmac_status` equal to the clean write-one-to-clear-under-mask form
`dmac_status & ~(v & 0x3FF)`, for every prior value and every `v`. -/
theorem claim4_theorem (w : World) (s : AwH3SDHostState) (v : Nat)
    (hd : s.dmac_status < 2 ^ 32) :
    (aw_h3_sdhost_write w s 0x88 v).2.dmac_status =
      s.dmac_status &&& compl32 (v &&& SD_IDST_WR_MASK) := by
  have h := idst_mask_equiv hd v
  simp only [aw_h3_sdhost_write]
  norm_num
  exact h

/-- C4 witness: the IDST write law evaluated at a concrete state. -/
theorem claim4_witness :
    sIdst.dmac_status < 2 ^ 32 ∧
    (aw_h3_sdhost_write worldR16 sIdst 0x88 0x1F5).2.dmac_status =
      sIdst.dmac_status &&& compl32 (0x1F5 &&& SD_IDST_WR_MASK) :=
  ⟨by decide, claim4_theorem worldR16 sIdst 0x1F5 (by decide)⟩

/-! ## Claim C6 -/

/-- C6: W1C law.  Writing a 32-bit `v` to RISR (0x38) or MISR (0x34)
replaces `irq_status` by `irq_status & ~v`, and writing `v` to STAR
(0x3C) replaces `status` by `status & ~v`; no other field of the device
state changes and the environment is untouched. -/
theorem claim6_theorem (w : World) (s : AwH3SDHostState) (v : Nat)
    (hirq : s.irq_status < 2 ^ 32) (hst : s.status < 2 ^ 32)
    (_hv : v < 2 ^ 32) :
    aw_h3_sdhost_write w s 0x38 v =
      (w, { s with irq_status := s.irq_status &&& compl32 v }) ∧
    aw_h3_sdhost_write w s 0x34 v =
      (w, { s with irq_status := s.irq_status &&& compl32 v }) ∧
    aw_h3_sdhost_write w s 0x3C v =
      (w, { s with status := s.status &&& compl32 v }) := by
  refine ⟨?_, ?_, ?_⟩
  · have h := u32_land_compl64 v hirq
    simp only [aw_h3_sdhost_write]
    norm_num
    exact h
  · have h := u32_land_compl64 v hirq
    simp only [aw_h3_sdhost_write]
    norm_num
    exact h
  · have h := u32_land_compl64 v hst
    simp only [aw_h3_sdhost_write]
    norm_num
    exact h

/-- C6 witness: the W1C law evaluated at a concrete state and value. -/
theorem claim6_witness :
    (sBitsUp.irq_status < 2 ^ 32 ∧ sBitsUp.status < 2 ^ 32 ∧
      (0x0F : Nat) < 2 ^ 32) ∧
    aw_h3_sdhost_write worldR16 sBitsUp 0x38 0x0F =
      (worldR16, { sBitsUp with
        irq_status := sBitsUp.irq_status &&& compl32 0x0F }) :=
  ⟨⟨by decide, by decide, by decide⟩,
    (claim6_theorem worldR16 sBitsUp 0x0F (by decide) (by decide)
      (by decide)).1⟩

end AwH3

namespace AwH3

/-! ## Claim C5 -/

/-- C5: under the DMA entry conditions (`byte_count > 0`,
`block_size > 0`, DMA_ENB set) the descriptor walk terminates for every
guest memory content: each processed descriptor moves between 1 and
`byte_count` bytes (a `size == 0` descriptor counts as 65536 bytes), so
`byte_count` strictly decreases and `byte_count` units of fuel complete
the walk. -/
theorem claim5_theorem (w : World) (s : AwH3SDHostState)
    (_h1 : 0 < s.byte_count) (_h2 : 0 < s.block_size)
    (_h3 : s.global_ctl &&& SD_GCTL_DMA_ENB ≠ 0) :
    (∀ (w' : World) (a : Nat) (iw : Bool) (mb : Nat), 0 < mb →
      1 ≤ (aw_h3_sdhost_process_desc w' a iw mb).2.2 ∧
      (aw_h3_sdhost_process_desc w' a iw mb).2.2 ≤ mb) ∧
    (aw_h3_sdhost_dma w s).isSome = true :=
  ⟨fun w' a iw mb hmb =>
    ⟨process_desc_pos w' a iw hmb, process_desc_le w' a iw mb⟩,
    dma_isSome w s⟩

/-- C5 witness: a concrete DMA write transfer over a descriptor chain in
all-zero guest memory (whose first descriptor has `size == 0` and never
sets LAST) terminates. -/
theorem claim5_witness :
    (0 < sDmaWr.byte_count ∧ 0 < sDmaWr.block_size ∧
      sDmaWr.global_ctl &&& SD_GCTL_DMA_ENB ≠ 0) ∧
    (aw_h3_sdhost_dma worldR16 sDmaWr).isSome = true :=
  ⟨⟨by decide, by decide, by decide⟩,
    (claim5_theorem worldR16 sDmaWr (by decide) (by decide) (by decide)).2⟩

/-! ## Claim C9 -/

/-- C9: every DMA walk that passes the entry conditions ends by setting
DATA_COMPLETE and AUTOCMD_DONE in `irq_status`, and TRANSMIT_IRQ (write
path) or RECEIVE_IRQ and SUM_RECEIVE_IRQ (read path) in `dmac_status` -
for every guest memory content, hence regardless of the NOIRQ flag
(`DESC_STATUS_NOIRQ`) of any processed descriptor, which the walker
never consults. -/
theorem claim9_theorem (w : World) (s : AwH3SDHostState)
    (h1 : 0 < s.byte_count) (h2 : 0 < s.block_size)
    (h3 : s.global_ctl &&& SD_GCTL_DMA_ENB ≠ 0)
    (h4 : s.command &&& SD_CMDR_WRITE ≠ 0 ∨ w.card.dataReady = true) :
    ∃ w' s', aw_h3_sdhost_dma w s = some (w', s') ∧
      s'.irq_status &&& (SD_RISR_DATA_COMPLETE ||| SD_RISR_AUTOCMD_DONE) =
        (SD_RISR_DATA_COMPLETE ||| SD_RISR_AUTOCMD_DONE) ∧
      (s.command &&& SD_CMDR_WRITE ≠ 0 →
        s'.dmac_status &&& SD_IDST_TRANSMIT_IRQ = SD_IDST_TRANSMIT_IRQ) ∧
      (s.command &&& SD_CMDR_WRITE = 0 →
        s'.dmac_status &&& (SD_IDST_SUM_RECEIVE_IRQ ||| SD_IDST_RECEIVE_IRQ) =
          (SD_IDST_SUM_RECEIVE_IRQ ||| SD_IDST_RECEIVE_IRQ)) := by
  have hsome := dmaLoop_isSome s.byte_count (s.command &&& SD_CMDR_WRITE != 0)
    w s s.desc_base (le_refl _)
  rcases hl : dmaLoop s.byte_count (s.command &&& SD_CMDR_WRITE != 0)
      w s s.desc_base with _ | p
  · rw [hl] at hsome
    simp at hsome
  · rcases p with ⟨w1, s1⟩
    simp only [aw_h3_sdhost_dma]
    rw [if_neg (by omega), if_neg (by
      intro hcon
      rcases h4 with h4 | h4
      · exact absurd (by simpa using hcon.1) h4
      · rw [h4] at hcon
        exact absurd hcon.2 (by simp))]
    rw [hl]
    dsimp only
    by_cases hw : s.command &&& SD_CMDR_WRITE = 0
    · rw [if_neg (by simp [hw])]
      refine ⟨_, _, rfl, ?_, ?_, ?_⟩
      · exact lor_land_self _ _
      · intro hco
        exact absurd hw hco
      · intro _
        exact lor_land_self _ _
    · rw [if_pos (by simp [hw])]
      refine ⟨_, _, rfl, ?_, ?_, ?_⟩
      · exact lor_land_self _ _
      · intro _
        exact lor_land_self _ _
      · intro hco
        exact absurd hco hw

/-- C9 witness: the concrete DMA write transfer of the C5 witness ends
with the completion bits raised. -/
theorem claim9_witness :
    (0 < sDmaWr.byte_count ∧ 0 < sDmaWr.block_size ∧
      sDmaWr.global_ctl &&& SD_GCTL_DMA_ENB ≠ 0 ∧
      sDmaWr.command &&& SD_CMDR_WRITE ≠ 0) ∧
    (∃ w' s', aw_h3_sdhost_dma worldR16 sDmaWr = some (w', s') ∧
      s'.irq_status &&& (SD_RISR_DATA_COMPLETE ||| SD_RISR_AUTOCMD_DONE) =
        (SD_RISR_DATA_COMPLETE ||| SD_RISR_AUTOCMD_DONE) ∧
      (sDmaWr.command &&& SD_CMDR_WRITE ≠ 0 →
        s'.dmac_status &&& SD_IDST_TRANSMIT_IRQ = SD_IDST_TRANSMIT_IRQ) ∧
      (sDmaWr.command &&& SD_CMDR_WRITE = 0 →
        s'.dmac_status &&& (SD_IDST_SUM_RECEIVE_IRQ ||| SD_IDST_RECEIVE_IRQ) =
          (SD_IDST_SUM_RECEIVE_IRQ ||| SD_IDST_RECEIVE_IRQ))) :=
  ⟨⟨by decide, by decide, by decide, by decide⟩,
    claim9_theorem worldR16 sDmaWr (by decide) (by decide) (by decide)
      (Or.inl (by decide))⟩

end AwH3

namespace AwH3

/-! Clearing the LOAD bit does not disturb the other command fields. -/

theorem load_clear_clkchange (x : Nat) :
    (x &&& compl32 SD_CMDR_LOAD) &&& SD_CMDR_CLKCHANGE =
      x &&& SD_CMDR_CLKCHANGE :=
  land_const_absorb _ _ _ (by decide)

theorem load_clear_response (x : Nat) :
    (x &&& compl32 SD_CMDR_LOAD) &&& SD_CMDR_RESPONSE =
      x &&& SD_CMDR_RESPONSE :=
  land_const_absorb _ _ _ (by decide)

theorem load_clear_response_long (x : Nat) :
    (x &&& compl32 SD_CMDR_LOAD) &&& SD_CMDR_RESPONSE_LONG =
      x &&& SD_CMDR_RESPONSE_LONG :=
  land_const_absorb _ _ _ (by decide)

theorem load_clear_cmdid (x : Nat) :
    (x &&& compl32 SD_CMDR_LOAD) &&& SD_CMDR_CMDID_MASK =
      x &&& SD_CMDR_CMDID_MASK :=
  land_const_absorb _ _ _ (by decide)

/-! ## Claim C1 -/

/-- C1 counterexample: a command with RESPONSE set and RESPONSE_LONG
clear that receives a 16-byte response does not get NO_RESPONSE; the
response is stored long-form and CMD_COMPLETE is raised, contradicting
"RESPONSE_LONG clear and length not 4 sets NO_RESPONSE and returns
without modifying the response registers". -/
theorem claim1_counterexample :
    sRespShort.command &&& SD_CMDR_RESPONSE ≠ 0 ∧
    sRespShort.command &&& SD_CMDR_RESPONSE_LONG = 0 ∧
    (aw_h3_sdhost_send_command cardR16 sRespShort).irq_status &&&
      SD_RISR_NO_RESPONSE = 0 ∧
    (aw_h3_sdhost_send_command cardR16 sRespShort).irq_status &&&
      SD_RISR_CMD_COMPLETE = SD_RISR_CMD_COMPLETE ∧
    (aw_h3_sdhost_send_command cardR16 sRespShort).response0 = 0x0C0D0E0F ∧
    sRespShort.response0 = 0 :=
  ⟨by decide, by decide, by decide, by decide, by decide, by decide⟩

/-- C1 (amended): with RESPONSE set (and CLKCHANGE clear, so the bus is
consulted), if CBI.submit fails, or the response length is 0, or the
length is 4 while RESPONSE_LONG is set, or the length is neither 4 nor
16, then NO_RESPONSE is set and the dispatch returns without setting
CMD_COMPLETE and without modifying the response registers.  (A 16-byte
response is accepted and stored long-form even when RESPONSE_LONG is
clear, so "RESPONSE_LONG clear and length not 4" alone is not an
error.) -/
theorem claim1_amended (card : SDBusCard) (s : AwH3SDHostState)
    (hclk : s.command &&& SD_CMDR_CLKCHANGE = 0)
    (hresp : s.command &&& SD_CMDR_RESPONSE ≠ 0)
    (herr : ∀ r, card.respond (s.command &&& SD_CMDR_CMDID_MASK)
        s.command_arg = some r →
      r.length = 0 ∨ (r.length = 4 ∧ s.command &&& SD_CMDR_RESPONSE_LONG ≠ 0) ∨
        (r.length ≠ 4 ∧ r.length ≠ 16)) :
    aw_h3_sdhost_send_command card s =
      { s with
        command := s.command &&& compl32 SD_CMDR_LOAD
        irq_status := s.irq_status ||| SD_RISR_NO_RESPONSE } := by
  simp only [aw_h3_sdhost_send_command]
  rw [load_clear_clkchange, load_clear_cmdid, if_pos hclk]
  rcases hres : card.respond (s.command &&& SD_CMDR_CMDID_MASK)
      s.command_arg with _ | r
  · rfl
  · dsimp only
    rw [load_clear_response, load_clear_response_long, if_pos hresp]
    rcases herr r hres with h0 | ⟨h4, hlong⟩ | ⟨h4, h16⟩
    · rw [if_pos (Or.inl h0)]
    · rw [if_pos (Or.inr ⟨h4, hlong⟩)]
    · by_cases h0 : r.length = 0
      · rw [if_pos (Or.inl h0)]
      · rw [if_neg (by tauto), if_pos ⟨h4, h16⟩]

/-- C1 witness: a failed CBI.submit with RESPONSE set leaves only
NO_RESPONSE raised and the response registers untouched. -/
theorem claim1_witness :
    (sRespShort.command &&& SD_CMDR_CLKCHANGE = 0 ∧
     sRespShort.command &&& SD_CMDR_RESPONSE ≠ 0) ∧
    aw_h3_sdhost_send_command cardNoResp sRespShort =
      { sRespShort with
        command := sRespShort.command &&& compl32 SD_CMDR_LOAD
        irq_status := sRespShort.irq_status ||| SD_RISR_NO_RESPONSE } :=
  ⟨⟨by decide, by decide⟩,
    claim1_amended cardNoResp sRespShort (by decide) (by decide)
      (fun r hr => by simp [cardNoResp] at hr)⟩

/-! ## Claim C7 -/

/-- C7: a 16-byte response to a command with RESPONSE and RESPONSE_LONG
set fills the response registers in reversed 4-byte-word order with
big-endian word loads: response0 from bytes 12..16, response1 from bytes
8..12, response2 from bytes 4..8, response3 from bytes 0..4, and
CMD_COMPLETE is raised. -/
theorem claim7_theorem (card : SDBusCard) (s : AwH3SDHostState)
    (resp : List Nat)
    (hclk : s.command &&& SD_CMDR_CLKCHANGE = 0)
    (hresp : s.command &&& SD_CMDR_RESPONSE ≠ 0)
    (_hlong : s.command &&& SD_CMDR_RESPONSE_LONG ≠ 0)
    (hres : card.respond (s.command &&& SD_CMDR_CMDID_MASK)
      s.command_arg = some resp)
    (hlen : resp.length = 16) :
    (aw_h3_sdhost_send_command card s).response0 = ldl_be resp 12 ∧
    (aw_h3_sdhost_send_command card s).response1 = ldl_be resp 8 ∧
    (aw_h3_sdhost_send_command card s).response2 = ldl_be resp 4 ∧
    (aw_h3_sdhost_send_command card s).response3 = ldl_be resp 0 ∧
    (aw_h3_sdhost_send_command card s).irq_status =
      s.irq_status ||| SD_RISR_CMD_COMPLETE := by
  simp only [aw_h3_sdhost_send_command]
  rw [load_clear_clkchange, load_clear_cmdid, if_pos hclk, hres]
  dsimp only
  rw [load_clear_response, if_pos hresp,
    if_neg (by simp [hlen]), if_neg (by simp [hlen]), if_neg (by simp [hlen])]
  exact ⟨rfl, rfl, rfl, rfl, rfl⟩

/-- C7 witness: for response bytes 0x00..0x0F the stored words are
0x0C0D0E0F, 0x08090A0B, 0x04050607, 0x00010203. -/
theorem claim7_witness :
    (sRespLong.command &&& SD_CMDR_CLKCHANGE = 0 ∧
     sRespLong.command &&& SD_CMDR_RESPONSE ≠ 0 ∧
     sRespLong.command &&& SD_CMDR_RESPONSE_LONG ≠ 0 ∧
     cardR16.respond (sRespLong.command &&& SD_CMDR_CMDID_MASK)
       sRespLong.command_arg = some (List.range 16) ∧
     (List.range 16).length = 16) ∧
    ((aw_h3_sdhost_send_command cardR16 sRespLong).response0 = 0x0C0D0E0F ∧
     (aw_h3_sdhost_send_command cardR16 sRespLong).response1 = 0x08090A0B ∧
     (aw_h3_sdhost_send_command cardR16 sRespLong).response2 = 0x04050607 ∧
     (aw_h3_sdhost_send_command cardR16 sRespLong).response3 = 0x00010203) := by
  have h := claim7_theorem cardR16 sRespLong (List.range 16) (by decide)
    (by decide) (by decide) rfl (by decide)
  exact ⟨⟨by decide, by decide, by decide, rfl, by decide⟩,
    h.1.trans (by decide), h.2.1.trans (by decide),
    h.2.2.1.trans (by decide), h.2.2.2.1.trans (by decide)⟩

end AwH3

namespace AwH3

/-! Flag bits of the injected CMD12: replacing the command id with 12 and
clearing LOAD keeps every other command flag. -/

theorem stop_cmd_flag (x m : Nat) (h1 : compl32 SD_CMDR_LOAD &&& m = m)
    (h2 : compl32 SD_CMDR_CMDID_MASK &&& m = m) (h3 : 12 &&& m = 0) :
    (((x &&& compl32 SD_CMDR_CMDID_MASK) ||| 12) &&& compl32 SD_CMDR_LOAD) &&&
      m = x &&& m := by
  rw [land_const_absorb _ _ _ h1, lor_land_split,
    land_const_absorb _ _ _ h2, h3, Nat.or_zero]

theorem stop_cmd_id (x : Nat) :
    (((x &&& compl32 SD_CMDR_CMDID_MASK) ||| 12) &&& compl32 SD_CMDR_LOAD) &&&
      SD_CMDR_CMDID_MASK = 12 := by
  rw [land_const_absorb _ _ _ (by decide), lor_land_split,
    land_const_kill _ _ _ (by decide), Nat.zero_or]
  decide

/-! ## Claim C10 -/

/-- C10: when auto-stop fires (AUTOSTOP set and `transfer_cnt == 0`),
`command` and `command_arg` read back unchanged afterwards, but the
injected CMD12 runs with the saved command's other flag bits in place:
with RESPONSE set (and CLKCHANGE clear, RESPONSE_LONG clear here), a
failing CMD12 leaves NO_RESPONSE raised and the response registers
untouched, while a 4-byte CMD12 response overwrites response0..3 and
raises CMD_COMPLETE - neither `irq_status` nor the response registers
are restored. -/
theorem claim10_theorem (card : SDBusCard) (s : AwH3SDHostState)
    (hauto : s.command &&& SD_CMDR_AUTOSTOP ≠ 0)
    (htc : s.transfer_cnt = 0)
    (hclk : s.command &&& SD_CMDR_CLKCHANGE = 0)
    (hresp : s.command &&& SD_CMDR_RESPONSE ≠ 0)
    (hlong : s.command &&& SD_CMDR_RESPONSE_LONG = 0) :
    (aw_h3_sdhost_auto_stop card s).command = s.command ∧
    (aw_h3_sdhost_auto_stop card s).command_arg = s.command_arg ∧
    (card.respond 12 0 = none →
      (aw_h3_sdhost_auto_stop card s).irq_status =
        s.irq_status ||| SD_RISR_NO_RESPONSE ∧
      (aw_h3_sdhost_auto_stop card s).response0 = s.response0 ∧
      (aw_h3_sdhost_auto_stop card s).response1 = s.response1 ∧
      (aw_h3_sdhost_auto_stop card s).response2 = s.response2 ∧
      (aw_h3_sdhost_auto_stop card s).response3 = s.response3) ∧
    (∀ r, card.respond 12 0 = some r → r.length = 4 →
      (aw_h3_sdhost_auto_stop card s).response0 = ldl_be r 0 ∧
      (aw_h3_sdhost_auto_stop card s).response1 = 0 ∧
      (aw_h3_sdhost_auto_stop card s).response2 = 0 ∧
      (aw_h3_sdhost_auto_stop card s).response3 = 0 ∧
      (aw_h3_sdhost_auto_stop card s).irq_status =
        s.irq_status ||| SD_RISR_CMD_COMPLETE) := by
  refine ⟨autoStop_command card s, autoStop_command_arg card s, ?_, ?_⟩
  · intro hnone
    simp only [aw_h3_sdhost_auto_stop, if_pos (And.intro hauto htc)]
    simp only [aw_h3_sdhost_send_command]
    rw [stop_cmd_flag s.command SD_CMDR_CLKCHANGE (by decide) (by decide)
        (by decide), if_pos hclk, stop_cmd_id, hnone]
    exact ⟨rfl, rfl, rfl, rfl, rfl⟩
  · intro r hr hlen
    simp only [aw_h3_sdhost_auto_stop, if_pos (And.intro hauto htc)]
    simp only [aw_h3_sdhost_send_command]
    rw [stop_cmd_flag s.command SD_CMDR_CLKCHANGE (by decide) (by decide)
        (by decide), if_pos hclk, stop_cmd_id, hr]
    dsimp only
    rw [stop_cmd_flag s.command SD_CMDR_RESPONSE (by decide) (by decide)
        (by decide), if_pos hresp,
      stop_cmd_flag s.command SD_CMDR_RESPONSE_LONG (by decide) (by decide)
        (by decide)]
    rw [if_neg (by simp [hlen, hlong]), if_neg (by simp [hlen]), if_pos hlen]
    exact ⟨rfl, rfl, rfl, rfl, rfl⟩

/-- C10 witness: a concrete auto-stop with a 4-byte CMD12 response
stores 0x11223344 into response0, zeroes response1..3, raises
CMD_COMPLETE, and restores `command` and `command_arg`. -/
theorem claim10_witness :
    (sAutoStop.command &&& SD_CMDR_AUTOSTOP ≠ 0 ∧
     sAutoStop.transfer_cnt = 0 ∧
     sAutoStop.command &&& SD_CMDR_CLKCHANGE = 0 ∧
     sAutoStop.command &&& SD_CMDR_RESPONSE ≠ 0 ∧
     sAutoStop.command &&& SD_CMDR_RESPONSE_LONG = 0 ∧
     cardR4.respond 12 0 = some [0x11, 0x22, 0x33, 0x44]) ∧
    ((aw_h3_sdhost_auto_stop cardR4 sAutoStop).command = sAutoStop.command ∧
     (aw_h3_sdhost_auto_stop cardR4 sAutoStop).command_arg =
       sAutoStop.command_arg ∧
     (aw_h3_sdhost_auto_stop cardR4 sAutoStop).response0 = 0x11223344 ∧
     (aw_h3_sdhost_auto_stop cardR4 sAutoStop).response1 = 0 ∧
     (aw_h3_sdhost_auto_stop cardR4 sAutoStop).irq_status =
       sAutoStop.irq_status ||| SD_RISR_CMD_COMPLETE) := by
  have h := claim10_theorem cardR4 sAutoStop (by decide) (by decide)
    (by decide) (by decide) (by decide)
  have h4 := h.2.2.2 [0x11, 0x22, 0x33, 0x44] rfl (by decide)
  exact ⟨⟨by decide, by decide, by decide, by decide, by decide, rfl⟩,
    h.1, h.2.1, h4.1.trans (by decide), h4.2.2.1, h4.2.2.2.2⟩

end AwH3

namespace AwH3

/-! ## Claim C8 -/

/-- Effect of any MMIO write on `global_ctl`: only a GCTL write changes
it, and then to the value with the reset bits force-cleared. -/
theorem write_global_ctl_eq (w : World) (s : AwH3SDHostState) (off v : Nat) :
    (aw_h3_sdhost_write w s off v).2.global_ctl = s.global_ctl ∨
    (aw_h3_sdhost_write w s off v).2.global_ctl =
      (u32 v &&& compl32 (SD_GCTL_DMA_RST ||| SD_GCTL_FIFO_RST ||| SD_GCTL_SOFT_RST)) := by
  unfold aw_h3_sdhost_write
  by_cases h0 : off = 0x00
  · rw [if_pos h0]
    exact Or.inr rfl
  rw [if_neg h0]
  by_cases h1 : off = 0x04
  · rw [if_pos h1]
    exact Or.inl rfl
  rw [if_neg h1]
  by_cases h2 : off = 0x08
  · rw [if_pos h2]
    exact Or.inl rfl
  rw [if_neg h2]
  by_cases h3 : off = 0x0C
  · rw [if_pos h3]
    exact Or.inl rfl
  rw [if_neg h3]
  by_cases h4 : off = 0x10
  · rw [if_pos h4]
    exact Or.inl rfl
  rw [if_neg h4]
  by_cases h5 : off = 0x14
  · rw [if_pos h5]
    exact Or.inl rfl
  rw [if_neg h5]
  by_cases h6 : off = 0x18
  · rw [if_pos h6]
    dsimp only
    by_cases hl : v &&& SD_CMDR_LOAD ≠ 0
    · rw [if_pos hl]
      rcases hm : aw_h3_sdhost_dma w
          (aw_h3_sdhost_send_command w.card { s with command := u32 v }) with _ | p
      · exact Or.inl (by simp [sendCommand_global_ctl])
      · rcases p with ⟨w2, s2⟩
        exact Or.inl (by simp [autoStop_global_ctl, dma_global_ctl hm,
          sendCommand_global_ctl])
    · rw [if_neg hl]
      exact Or.inl rfl
  rw [if_neg h6]
  by_cases h7 : off = 0x1C
  · rw [if_pos h7]
    exact Or.inl rfl
  rw [if_neg h7]
  by_cases h8 : off = 0x20
  · rw [if_pos h8]
    exact Or.inl rfl
  rw [if_neg h8]
  by_cases h9 : off = 0x24
  · rw [if_pos h9]
    exact Or.inl rfl
  rw [if_neg h9]
  by_cases h10 : off = 0x28
  · rw [if_pos h10]
    exact Or.inl rfl
  rw [if_neg h10]
  by_cases h11 : off = 0x2C
  · rw [if_pos h11]
    exact Or.inl rfl
  rw [if_neg h11]
  by_cases h12 : off = 0x30
  · rw [if_pos h12]
    exact Or.inl rfl
  rw [if_neg h12]
  by_cases h13 : off = 0x34 ∨ off = 0x38
  · rw [if_pos h13]
    exact Or.inl rfl
  rw [if_neg h13]
  by_cases h14 : off = 0x3C
  · rw [if_pos h14]
    exact Or.inl rfl
  rw [if_neg h14]
  by_cases h15 : off = 0x40
  · rw [if_pos h15]
    exact Or.inl rfl
  rw [if_neg h15]
  by_cases h16 : off = 0x44
  · rw [if_pos h16]
    exact Or.inl rfl
  rw [if_neg h16]
  by_cases h17 : off = 0x50
  · rw [if_pos h17]
    exact Or.inl rfl
  rw [if_neg h17]
  by_cases h18 : off = 0x58
  · rw [if_pos h18]
    exact Or.inl rfl
  rw [if_neg h18]
  by_cases h19 : off = 0x5C
  · rw [if_pos h19]
    exact Or.inl rfl
  rw [if_neg h19]
  by_cases h20 : off = 0x60
  · rw [if_pos h20]
    exact Or.inl rfl
  rw [if_neg h20]
  by_cases h21 : off = 0x78
  · rw [if_pos h21]
    exact Or.inl rfl
  rw [if_neg h21]
  by_cases h22 : off = 0x80
  · rw [if_pos h22]
    exact Or.inl rfl
  rw [if_neg h22]
  by_cases h23 : off = 0x84
  · rw [if_pos h23]
    exact Or.inl rfl
  rw [if_neg h23]
  by_cases h24 : off = 0x88
  · rw [if_pos h24]
    exact Or.inl rfl
  rw [if_neg h24]
  by_cases h25 : off = 0x8C
  · rw [if_pos h25]
    exact Or.inl rfl
  rw [if_neg h25]
  by_cases h26 : off = 0x100
  · rw [if_pos h26]
    exact Or.inl rfl
  rw [if_neg h26]
  by_cases h27 : off = 0x10C
  · rw [if_pos h27]
    exact Or.inl rfl
  rw [if_neg h27]
  by_cases h28 : off = 0x200
  · rw [if_pos h28]
    dsimp only
    exact Or.inl (by simp [autoStop_global_ctl, utc_global_ctl])
  rw [if_neg h28]
  exact Or.inl rfl

/-- No MMIO read changes `global_ctl`. -/
theorem read_state_global_ctl (w : World) (s : AwH3SDHostState) (off : Nat) :
    (aw_h3_sdhost_read w s off).2.1.global_ctl = s.global_ctl := by
  unfold aw_h3_sdhost_read
  by_cases h0 : off = 0x00
  · rw [if_pos h0]
  rw [if_neg h0]
  by_cases h1 : off = 0x04
  · rw [if_pos h1]
  rw [if_neg h1]
  by_cases h2 : off = 0x08
  · rw [if_pos h2]
  rw [if_neg h2]
  by_cases h3 : off = 0x0C
  · rw [if_pos h3]
  rw [if_neg h3]
  by_cases h4 : off = 0x10
  · rw [if_pos h4]
  rw [if_neg h4]
  by_cases h5 : off = 0x14
  · rw [if_pos h5]
  rw [if_neg h5]
  by_cases h6 : off = 0x18
  · rw [if_pos h6]
  rw [if_neg h6]
  by_cases h7 : off = 0x1C
  · rw [if_pos h7]
  rw [if_neg h7]
  by_cases h8 : off = 0x20
  · rw [if_pos h8]
  rw [if_neg h8]
  by_cases h9 : off = 0x24
  · rw [if_pos h9]
  rw [if_neg h9]
  by_cases h10 : off = 0x28
  · rw [if_pos h10]
  rw [if_neg h10]
  by_cases h11 : off = 0x2C
  · rw [if_pos h11]
  rw [if_neg h11]
  by_cases h12 : off = 0x30
  · rw [if_pos h12]
  rw [if_neg h12]
  by_cases h13 : off = 0x34
  · rw [if_pos h13]
  rw [if_neg h13]
  by_cases h14 : off = 0x38
  · rw [if_pos h14]
  rw [if_neg h14]
  by_cases h15 : off = 0x3C
  · rw [if_pos h15]
  rw [if_neg h15]
  by_cases h16 : off = 0x40
  · rw [if_pos h16]
  rw [if_neg h16]
  by_cases h17 : off = 0x44
  · rw [if_pos h17]
  rw [if_neg h17]
  by_cases h18 : off = 0x50
  · rw [if_pos h18]
  rw [if_neg h18]
  by_cases h19 : off = 0x58
  · rw [if_pos h19]
  rw [if_neg h19]
  by_cases h20 : off = 0x5C
  · rw [if_pos h20]
  rw [if_neg h20]
  by_cases h21 : off = 0x60
  · rw [if_pos h21]
  rw [if_neg h21]
  by_cases h22 : off = 0x78
  · rw [if_pos h22]
  rw [if_neg h22]
  by_cases h23 : off = 0x80
  · rw [if_pos h23]
  rw [if_neg h23]
  by_cases h24 : off = 0x84
  · rw [if_pos h24]
  rw [if_neg h24]
  by_cases h25 : off = 0x88
  · rw [if_pos h25]
  rw [if_neg h25]
  by_cases h26 : off = 0x8C
  · rw [if_pos h26]
  rw [if_neg h26]
  by_cases h27 : off = 0x100
  · rw [if_pos h27]
  rw [if_neg h27]
  by_cases h28 : off = 0x10C
  · rw [if_pos h28]
  rw [if_neg h28]
  by_cases h29 : off = 0x110
  · rw [if_pos h29]
  rw [if_neg h29]
  by_cases h30 : 0x114 ≤ off ∧ off ≤ 0x130 ∧ (off - 0x114) % 4 = 0
  · rw [if_pos h30]
  rw [if_neg h30]
  by_cases h31 : off = 0x134
  · rw [if_pos h31]
  rw [if_neg h31]
  by_cases h32 : off = 0x200
  · rw [if_pos h32]
    by_cases hd : w.card.dataReady = true
    · rw [if_pos hd]
      dsimp only
      simp [autoStop_global_ctl, utc_global_ctl]
    · rw [if_neg hd]
  rw [if_neg h32]

/-- Any single device transition preserves the self-cleared reset bits
of GCTL. -/
theorem step_gctl_rst {p q : World × AwH3SDHostState} (hstep : Step p q)
    (h : p.2.global_ctl &&&
      (SD_GCTL_DMA_RST ||| SD_GCTL_FIFO_RST ||| SD_GCTL_SOFT_RST) = 0) :
    q.2.global_ctl &&&
      (SD_GCTL_DMA_RST ||| SD_GCTL_FIFO_RST ||| SD_GCTL_SOFT_RST) = 0 := by
  cases hstep with
  | write w s off v hv =>
    rcases write_global_ctl_eq w s off v with he | he
    · rw [he]
      exact h
    · rw [he]
      exact land_const_kill _ _ _ (by decide)
  | read w s off =>
    rw [read_state_global_ctl]
    exact h
  | insert w s b =>
    simp only [aw_h3_sdhost_set_inserted]
    split <;> simpa using h
/-- The GCTL reset bits read as zero in every reachable configuration. -/
theorem reachable_gctl_rst {p : World × AwH3SDHostState} (hr : Reachable p) :
    p.2.global_ctl &&&
      (SD_GCTL_DMA_RST ||| SD_GCTL_FIFO_RST ||| SD_GCTL_SOFT_RST) = 0 := by
  induction hr with
  | init w =>
    exact (by decide : aw_h3_sdhost_reset.global_ctl &&&
      (SD_GCTL_DMA_RST ||| SD_GCTL_FIFO_RST ||| SD_GCTL_SOFT_RST) = 0)
  | step _ hstep ih => exact step_gctl_rst hstep ih

/-- After any CMDR write the stored command has the LOAD bit clear. -/
theorem write_cmdr_load (w : World) (s : AwH3SDHostState) (v : Nat)
    (hv : v < 2 ^ 32) :
    (aw_h3_sdhost_write w s 0x18 v).2.command &&& SD_CMDR_LOAD = 0 := by
  simp only [aw_h3_sdhost_write]
  norm_num
  by_cases hl : v &&& SD_CMDR_LOAD = 0
  · rw [if_pos hl]
    dsimp only
    rw [u32, Nat.mod_eq_of_lt hv]
    exact hl
  · rw [if_neg hl]
    rcases hm : aw_h3_sdhost_dma w
        (aw_h3_sdhost_send_command w.card { s with command := u32 v })
        with _ | p
    · simp only [sendCommand_command]
      exact land_const_kill _ _ _ (by decide)
    · rcases p with ⟨w2, s2⟩
      simp only [autoStop_command, dma_command hm, sendCommand_command]
      exact land_const_kill _ _ _ (by decide)

/-- C8: self-clearing control bits.  In every reachable configuration,
reading GCTL yields a value whose DMA_RST, FIFO_RST and SOFT_RST bits are
all zero; and after every CMDR write (any prior state, any 32-bit value),
reading CMDR yields a value whose LOAD bit is zero. -/
theorem claim8_theorem :
    (∀ p : World × AwH3SDHostState, Reachable p →
      (aw_h3_sdhost_read p.1 p.2 0x00).2.2 &&&
        (SD_GCTL_DMA_RST ||| SD_GCTL_FIFO_RST ||| SD_GCTL_SOFT_RST) = 0) ∧
    (∀ (w : World) (s : AwH3SDHostState) (v : Nat), v < 2 ^ 32 →
      (aw_h3_sdhost_read (aw_h3_sdhost_write w s 0x18 v).1
          (aw_h3_sdhost_write w s 0x18 v).2 0x18).2.2 &&&
        SD_CMDR_LOAD = 0) := by
  constructor
  · intro p hp
    have := reachable_gctl_rst hp
    simpa [aw_h3_sdhost_read] using this
  · intro w s v hv
    have := write_cmdr_load w s v hv
    simpa [aw_h3_sdhost_read] using this

/-- C8 witness: the invariant evaluated at the reset configuration and at
a concrete CMDR write that dispatches a (failing) command. -/
theorem claim8_witness :
    ((aw_h3_sdhost_read worldR16 aw_h3_sdhost_reset 0x00).2.2 &&&
      (SD_GCTL_DMA_RST ||| SD_GCTL_FIFO_RST ||| SD_GCTL_SOFT_RST) = 0) ∧
    ((0x80000000 : Nat) < 2 ^ 32 ∧
      (aw_h3_sdhost_read
          (aw_h3_sdhost_write worldNoResp aw_h3_sdhost_reset 0x18 0x80000000).1
          (aw_h3_sdhost_write worldNoResp aw_h3_sdhost_reset 0x18 0x80000000).2
          0x18).2.2 &&& SD_CMDR_LOAD = 0) :=
  ⟨claim8_theorem.1 (worldR16, aw_h3_sdhost_reset) (Reachable.init worldR16),
    by norm_num,
    claim8_theorem.2 worldNoResp aw_h3_sdhost_reset 0x80000000 (by norm_num)⟩

end AwH3
